import Mathlib

/-!
Shallow embedding of `scan_wsl_services.py`: the socket scanner, the service
classifier and the external-port allocator, together with proofs about the
behaviour its specification describes.

Python strings are modelled by `String`, Python ints by `Int` (so `%` is
`Int.emod`, which agrees with Python's `%` for a positive modulus), Python
lists by `List`, and insertion-ordered dicts by association lists with
replace-in-place update semantics.
-/

namespace ScanWsl

/-- Substring containment, the model of Python's `pat in s`. -/
def containsSubstr (s pat : String) : Bool := decide (pat.data <:+: s.data)

/-- Lowercasing, the model of Python's `s.lower()` for the ASCII text the
scanner meets. -/
def pyLower (s : String) : String := String.mk (s.data.map Char.toLower)

/-- Drop leading whitespace characters. -/
def dropLeadWs : List Char → List Char
  | [] => []
  | c :: cs => if c.isWhitespace then dropLeadWs cs else c :: cs

/-- Python's `s.strip()`: surrounding whitespace removed. -/
def pyStrip (s : String) : String :=
  String.mk ((dropLeadWs (dropLeadWs s.data).reverse).reverse)

/-- Split a character list at every character satisfying `p`, keeping empty
chunks (the behaviour of Python's `s.split(sep)` for a one-character
separator when `p` tests for that separator). -/
def splitOnPred (p : Char → Bool) : List Char → List (List Char)
  | [] => [[]]
  | c :: cs =>
    let r := splitOnPred p cs
    if p c then [] :: r
    else
      match r with
      | [] => [[c]]
      | h :: t => (c :: h) :: t

/-- Python's `s.split('\n')`. -/
def splitNewlines (s : String) : List String :=
  (splitOnPred (fun c => c = '\n') s.data).map String.mk

/-- Python's `str.split()` with no argument: split on whitespace runs,
with no empty chunks. -/
def pySplit (s : String) : List String :=
  ((splitOnPred Char.isWhitespace s.data).filter (fun w => w ≠ [])).map String.mk

/-- `isPrefixList pat cs` is true when `pat` begins `cs`. -/
def isPrefixList : List Char → List Char → Bool
  | [], _ => true
  | _ :: _, [] => false
  | p :: ps, c :: cs => p == c && isPrefixList ps cs

/-- Python's `s.startswith(pat)`. -/
def pyStartsWith (s pat : String) : Bool := isPrefixList pat.data s.data

/-- `cs.rsplitColon` splits a character list at its last `':'`, the model of
Python's `s.rsplit(':', 1)` (returns `none` when no colon is present, the
case Python's surrounding `try` turns into a skipped row). -/
def rsplitColon : List Char → Option (List Char × List Char)
  | [] => none
  | c :: rest =>
    match rsplitColon rest with
    | some (a, b) => some (c :: a, b)
    | none => if c = ':' then some ([], rest) else none

/-- Value of a nonempty all-decimal-digit character list, `none` otherwise. -/
def decDigits (ds : List Char) : Option Nat :=
  match ds with
  | [] => none
  | _ :: _ =>
    if ds.all (fun c => c.isDigit) then
      some (ds.foldl (fun n c => 10 * n + (c.toNat - 48)) 0)
    else none

/-- Model of Python's `int(s)` on the decimal strings the scanner can meet:
surrounding whitespace is stripped, an optional sign is honoured, and
anything that is not then a digit string fails. -/
def pyInt (s : String) : Option Int :=
  match (pyStrip s).data with
  | '-' :: ds => (decDigits ds).map (fun n => -(n : Int))
  | '+' :: ds => (decDigits ds).map (fun n => (n : Int))
  | ds => (decDigits ds).map (fun n => (n : Int))

/-! ### Service classifier (`identify_service`) -/

/-- The fixed well-known-port table (`common_ports` in the source). -/
def commonPorts : List (Int × String) :=
  [(22, "SSH"), (80, "HTTP"), (443, "HTTPS"), (3306, "MySQL"),
   (5432, "PostgreSQL"), (6379, "Redis"), (6432, "PgBouncer"), (631, "CUPS"),
   (53, "DNS"), (3000, "Node.js Dev"), (8000, "HTTP Dev"), (8080, "HTTP Alt"),
   (5000, "Flask Dev"), (3001, "React Dev"), (4000, "GraphQL"),
   (5678, "Debug"), (7080, "Proxy/LB")]

/-- Dictionary lookup in the well-known-port table. -/
def lookupCommon (port : Int) : Option String :=
  (commonPorts.find? (fun e => e.1 == port)).map (fun e => e.2)

/-- The cascade of case-insensitive process-name substring checks over the
raw row text (the `elif` chain of `identify_service`). -/
def textHint (line : String) : Option String :=
  let low := pyLower line
  if containsSubstr low "sshd" then some "SSH"
  else if containsSubstr low "nginx" || containsSubstr low "httpd"
      || containsSubstr low "apache" then some "HTTP"
  else if containsSubstr low "mysql" || containsSubstr low "mariadb" then some "MySQL"
  else if containsSubstr low "postgres" then some "PostgreSQL"
  else if containsSubstr low "redis" then some "Redis"
  else if containsSubstr low "node" then some "Node.js"
  else if containsSubstr low "python" then some "Python"
  else if containsSubstr low "code" then some "VS Code"
  else none

/-- The port-range fallback layer of `identify_service`. -/
def rangeGuess (port : Int) : String :=
  if 2000 ≤ port ∧ port ≤ 2299 then "SSH Alt"
  else if 3000 ≤ port ∧ port ≤ 3999 then "Dev Server"
  else if 8000 ≤ port ∧ port ≤ 8999 then "HTTP Alt"
  else if 5000 ≤ port ∧ port ≤ 5999 then "Dev/API"
  else "Unknown"

/-- `identify_service(port, line)`: well-known table first, then text hints,
then range guesses, then "Unknown". -/
def identify_service (port : Int) (line : String) : String :=
  match lookupCommon port with
  | some label => label
  | none =>
    match textHint line with
    | some label => label
    | none => rangeGuess port

/-! ### Socket scanner (`scan_instance_ports`) -/

/-- One retained listening-socket row (`port_info` in the source). -/
structure PortInfo where
  port : Int
  protocol : String
  address : String
  service_type : String
  raw_line : String
deriving DecidableEq

/-- Result of running the socket-listing command inside an instance. -/
structure CmdResult where
  returncode : Int
  stdout : String
  stderr : String
deriving DecidableEq

/-- Per-instance scan outcome (`instance_info` in the source). -/
structure InstanceInfo where
  instanceId : String
  accessible : Bool
  ports : List PortInfo
  services : List (Int × List String)
  error : Option String
deriving DecidableEq

/-- Parse one line of socket-state output into a retained record, `none`
when the row is skipped: no LISTEN state, fewer than four columns, no colon
in the local address, a non-integer port substring, or a loopback-prefixed
address. -/
def parseRow (line : String) : Option PortInfo :=
  if containsSubstr line "LISTEN" then
    match pySplit line with
    | _ :: _ :: _ :: local_addr :: _ =>
      match rsplitColon local_addr.data with
      | some (addrCs, portCs) =>
        match pyInt (String.mk portCs) with
        | some port =>
          if pyStartsWith (String.mk addrCs) "127.0.0"
              || pyStartsWith (String.mk addrCs) "::1" then none
          else
            some { port := port, protocol := "tcp", address := String.mk addrCs,
                   service_type := identify_service port line,
                   raw_line := pyStrip line }
        | none => none
      | none => none
    | _ => none
  else none

/-- All retained rows of the socket-state output, in scan order (header
dropped, each remaining line run through `parseRow`). -/
def parsedRecords (stdout : String) : List PortInfo :=
  ((splitNewlines (pyStrip stdout)).drop 1).filterMap parseRow

/-- Keep the first record seen for each port number, in order of first
occurrence (the `unique_ports` dictionary of the source). -/
def dedupAux (seen : List Int) : List PortInfo → List PortInfo
  | [] => []
  | r :: rest =>
    if r.port ∈ seen then dedupAux seen rest
    else r :: dedupAux (r.port :: seen) rest

/-- Deduplication by port, first row wins. -/
def dedupByPort (l : List PortInfo) : List PortInfo := dedupAux [] l

/-- Append a service label under a port key, preserving key insertion order
(the `port_services` defaultdict of the source). -/
def addService (acc : List (Int × List String)) (p : Int) (s : String) :
    List (Int × List String) :=
  if acc.any (fun e => e.1 == p) then
    acc.map (fun e => if e.1 == p then (e.1, e.2 ++ [s]) else e)
  else acc ++ [(p, [s])]

/-- The per-port service summary: labels of every retained (pre-dedup) row,
grouped by port, each group deduplicated.  Python's `list(set(...))` has
unspecified order; it is modelled as first-occurrence order. -/
def portServices (records : List PortInfo) : List (Int × List String) :=
  (records.foldl (fun acc r => addService acc r.port r.service_type) []).map
    (fun e => (e.1, e.2.eraseDups))

/-- The diagnostic recorded when the socket-listing command fails. -/
def accessError (rc : Int) (stderr : String) : String :=
  "Failed to access (exit " ++ toString rc ++ "): " ++ pyStrip stderr

/-- `scan_instance_ports(instance)`, with the external command's outcome
passed in as data. -/
def scan_instance_ports (instanceId : String) (result : CmdResult) : InstanceInfo :=
  if result.returncode ≠ 0 then
    { instanceId := instanceId, accessible := false, ports := [],
      services := [], error := some (accessError result.returncode result.stderr) }
  else
    let records := parsedRecords result.stdout
    { instanceId := instanceId, accessible := true,
      ports := dedupByPort records,
      services := portServices records, error := none }

/-! ### External port allocator (`assign_external_ports`) -/

/-- One conflicting claimant, as appended to the `conflicts` defaultdict. -/
structure Claimant where
  inst : String
  internal_port : Int
  service_type : String
deriving DecidableEq

/-- One external-port mapping, as built by `assign_external_ports`. -/
structure Mapping where
  name : String
  distro : String
  protocol : String
  port : Int
  internal_port : Int
  firewall : String
  listen_address : String
  service_type : String
  original_address : String
deriving DecidableEq

/-- The allocator's running state: the seven counters, the used-port set
(modelled as the list of ports added so far) and the conflicts dictionary. -/
structure AllocState where
  ssh_external : Int
  http_external : Int
  https_external : Int
  mysql_external : Int
  postgres_external : Int
  redis_external : Int
  dev_external : Int
  used_external_ports : List Int
  conflicts : List (Int × List Claimant)
deriving DecidableEq

/-- The counters' fixed starting values, empty used set, no conflicts. -/
def initState : AllocState :=
  { ssh_external := 2201, http_external := 8081, https_external := 8443,
    mysql_external := 3307, postgres_external := 5433, redis_external := 6380,
    dev_external := 9001, used_external_ports := [], conflicts := [] }

/-- The fallback avoidance loop `while external_port in used: external_port += 1`,
with enough fuel to pass every used port at most once. -/
def nextFreeAux (used : List Int) : Nat → Int → Int
  | 0, p => p
  | fuel + 1, p => if p ∈ used then nextFreeAux used fuel (p + 1) else p

/-- First value `≥ p` that is not in `used`. -/
def nextFree (used : List Int) (p : Int) : Int :=
  nextFreeAux used (used.length + 1) p

/-- The assignment rule: the `if`/`elif` chain choosing a counter (taking
and incrementing it) or, in the final `else`, the 9000-range fallback. -/
def pickExternal (st : AllocState) (pi : PortInfo) : Int × AllocState :=
  if pi.service_type = "SSH" ∨ pi.port = 22 then
    (st.ssh_external, { st with ssh_external := st.ssh_external + 1 })
  else if (pi.service_type = "HTTP" ∨ pi.service_type = "HTTP Alt") ∧ pi.port = 80 then
    (st.http_external, { st with http_external := st.http_external + 1 })
  else if pi.service_type = "HTTPS" ∧ pi.port = 443 then
    (st.https_external, { st with https_external := st.https_external + 1 })
  else if pi.service_type = "MySQL" ∧ pi.port = 3306 then
    (st.mysql_external, { st with mysql_external := st.mysql_external + 1 })
  else if pi.service_type = "PostgreSQL" ∧ pi.port = 5432 then
    (st.postgres_external, { st with postgres_external := st.postgres_external + 1 })
  else if pi.service_type = "Redis" ∧ pi.port = 6379 then
    (st.redis_external, { st with redis_external := st.redis_external + 1 })
  else if pi.service_type = "Dev Server" ∨ pi.service_type = "Node.js Dev"
      ∨ pi.service_type = "Flask Dev" then
    (st.dev_external, { st with dev_external := st.dev_external + 1 })
  else
    (nextFree st.used_external_ports (9000 + pi.port.emod 1000), st)

/-- Append a claimant under an external-port key, preserving key insertion
order (the `conflicts` defaultdict of the source). -/
def addConflict (cs : List (Int × List Claimant)) (p : Int) (c : Claimant) :
    List (Int × List Claimant) :=
  if cs.any (fun e => e.1 == p) then
    cs.map (fun e => if e.1 == p then (e.1, e.2 ++ [c]) else e)
  else cs ++ [(p, [c])]

/-- Process one port record: choose the external port, then either record a
conflict (leaving the used set unchanged) or mark the port used, and emit
the mapping either way. -/
def assignOne (st : AllocState) (inst : String) (pi : PortInfo) :
    AllocState × Mapping :=
  let pe := pickExternal st pi
  let external_port := pe.1
  let st1 := pe.2
  let claimant : Claimant :=
    { inst := inst, internal_port := pi.port, service_type := pi.service_type }
  let st2 :=
    if external_port ∈ st1.used_external_ports then
      { st1 with conflicts := addConflict st1.conflicts external_port claimant }
    else
      { st1 with used_external_ports := external_port :: st1.used_external_ports }
  (st2, { name := inst ++ " " ++ pi.service_type, distro := inst,
          protocol := "tcp", port := external_port, internal_port := pi.port,
          firewall := "local", listen_address := "0.0.0.0",
          service_type := pi.service_type, original_address := pi.address })

/-- Process one instance's port records in scan order, emitting the
mappings in the same order. -/
def assignInstance (st : AllocState) (inst : String) :
    List PortInfo → AllocState × List Mapping
  | [] => (st, [])
  | pi :: rest =>
    let r1 := assignOne st inst pi
    let r2 := assignInstance r1.1 inst rest
    (r2.1, r1.2 :: r2.2)

/-- Set a key in an insertion-ordered dictionary: replace in place when the
key exists, append otherwise (Python dict assignment semantics). -/
def setKey (d : List (String × List Mapping)) (k : String) (v : List Mapping) :
    List (String × List Mapping) :=
  if d.any (fun e => e.1 == k) then
    d.map (fun e => if e.1 == k then (e.1, v) else e)
  else d ++ [(k, v)]

/-- The allocator's main loop over instances: inaccessible instances are
skipped, each accessible one gets its mapping list stored under its name. -/
def assignAll (st : AllocState) (d : List (String × List Mapping)) :
    List InstanceInfo → List (String × List Mapping) × List (Int × List Claimant)
  | [] => (d, st.conflicts)
  | info :: rest =>
    if info.accessible then
      let r := assignInstance st info.instanceId info.ports
      assignAll r.1 (setKey d info.instanceId r.2) rest
    else assignAll st d rest

/-- `assign_external_ports(all_instances)`: the mapping plan keyed by
instance, and the conflicts dictionary. -/
def assign_external_ports (all_instances : List InstanceInfo) :
    List (String × List Mapping) × List (Int × List Claimant) :=
  assignAll initState [] all_instances

/-! ### Configuration emission (the port-entry construction in `main`) -/

/-- One `ports` entry of the emitted configuration document;
`internal_port = none` models the deleted key. -/
structure PortConfig where
  port : Int
  internal_port : Option Int
  firewall : String
  comment : String
deriving DecidableEq

/-- Build one configuration port entry from a mapping: the full entry is
built, then `internal_port` is dropped (and the comment replaced) when it
equals `port`. -/
def mkPortConfig (m : Mapping) : PortConfig :=
  if m.port = m.internal_port then
    { port := m.port, internal_port := none, firewall := m.firewall,
      comment := m.service_type ++ " service (same port internally)" }
  else
    { port := m.port, internal_port := some m.internal_port,
      firewall := m.firewall,
      comment := m.service_type ++ " service (external " ++ toString m.port
        ++ " -> internal " ++ toString m.internal_port ++ ")" }

/-- One instance's section of the emitted configuration document. -/
structure InstanceConfig where
  name : String
  comment : String
  ports : List PortConfig
deriving DecidableEq

/-- The `instances` array of the emitted configuration document. -/
def buildConfig (plan : List (String × List Mapping)) : List InstanceConfig :=
  plan.map (fun e =>
    { name := e.1,
      comment := "Auto-discovered WSL2 instance with "
        ++ toString e.2.length ++ " services",
      ports := e.2.map mkPortConfig })

/-! ### Spec-side notions and concrete inputs used in the theorems -/

/-- The specification's notion of a loopback address (stated for comparison
with the code's prefix test): an IPv4 dotted quad whose first octet is 127
(the 127.0.0.0/8 block), or the IPv6 loopback "::1". -/
def specLoopback (addr : String) : Bool :=
  (match (splitOnPred (fun c => c = '.') addr.data).map decDigits with
   | [some a, some b, some c, some d] =>
     a == 127 && b ≤ 255 && c ≤ 255 && d ≤ 255
   | _ => false) || addr == "::1"

/-- `IsFallback pi` holds when none of the seven named-service rules of
`pickExternal` matches, so the record is assigned by the 9000-range
fallback branch. -/
def IsFallback (pi : PortInfo) : Prop :=
  ¬(pi.service_type = "SSH" ∨ pi.port = 22) ∧
  ¬((pi.service_type = "HTTP" ∨ pi.service_type = "HTTP Alt") ∧ pi.port = 80) ∧
  ¬(pi.service_type = "HTTPS" ∧ pi.port = 443) ∧
  ¬(pi.service_type = "MySQL" ∧ pi.port = 3306) ∧
  ¬(pi.service_type = "PostgreSQL" ∧ pi.port = 5432) ∧
  ¬(pi.service_type = "Redis" ∧ pi.port = 6379) ∧
  ¬(pi.service_type = "Dev Server" ∨ pi.service_type = "Node.js Dev"
      ∨ pi.service_type = "Flask Dev")

instance (pi : PortInfo) : Decidable (IsFallback pi) := by
  unfold IsFallback; infer_instance

/-- A socket-lister outcome whose only data row is bound to 127.1.0.1, an
address inside 127.0.0.0/8 that the code's prefix test does not match. -/
def loopbackRes : CmdResult :=
  { returncode := 0,
    stdout := "State Recv-Q Send-Q Local Peer\nLISTEN 0 128 127.1.0.1:8080 0.0.0.0:*",
    stderr := "" }

/-- A socket-lister outcome whose only data row reports port 70000, outside
the 1-65535 range. -/
def res70000 : CmdResult :=
  { returncode := 0,
    stdout := "State Recv-Q Send-Q Local Peer\nLISTEN 0 128 0.0.0.0:70000 0.0.0.0:*",
    stderr := "" }

/-- A socket-lister outcome with two LISTEN rows for port 5432 at different
addresses. -/
def resDup : CmdResult :=
  { returncode := 0,
    stdout := "State Recv-Q Send-Q Local Peer\nLISTEN 0 1 0.0.0.0:5432 x\nLISTEN 0 1 [::]:5432 x",
    stderr := "" }

/-- A failed socket-lister invocation. -/
def brokenRes : CmdResult := { returncode := 1, stdout := "", stderr := "boom" }

/-- An SSH port record as the scanner would store it. -/
def sshRecord : PortInfo :=
  { port := 22, protocol := "tcp", address := "0.0.0.0", service_type := "SSH",
    raw_line := "" }

/-- An accessible instance exposing only SSH. -/
def sshInstance (n : String) : InstanceInfo :=
  { instanceId := n, accessible := true, ports := [sshRecord],
    services := [(22, ["SSH"])], error := none }

/-- A record handled by the fallback rule: internal port 100, candidate
external port 9100. -/
def fbRecord : PortInfo :=
  { port := 100, protocol := "tcp", address := "0.0.0.0",
    service_type := "Unknown", raw_line := "" }

/-- An accessible instance exposing only `fbRecord`. -/
def fbInstance (n : String) : InstanceInfo :=
  { instanceId := n, accessible := true, ports := [fbRecord],
    services := [(100, ["Unknown"])], error := none }

/-- The record the scanner stores for the first port-5432 row of `resDup`. -/
def dupRecord : PortInfo :=
  { port := 5432, protocol := "tcp", address := "0.0.0.0",
    service_type := "PostgreSQL", raw_line := "LISTEN 0 1 0.0.0.0:5432 x" }

/-- The record the scanner stores for the port-70000 row of `res70000`. -/
def rec70000 : PortInfo :=
  { port := 70000, protocol := "tcp", address := "0.0.0.0",
    service_type := "Unknown", raw_line := "LISTEN 0 128 0.0.0.0:70000 0.0.0.0:*" }

/-! ### Helper lemmas -/

theorem length_filter_succ_lt (used : List Int) (p : Int) (hp : p ∈ used) :
    (used.filter (fun x => decide (p + 1 ≤ x))).length <
      (used.filter (fun x => decide (p ≤ x))).length := by
  induction used with
  | nil => simp at hp
  | cons a l ih =>
    simp only [List.filter_cons]
    rcases List.mem_cons.mp hp with rfl | ha
    · have h1 : (decide (p + 1 ≤ p)) = false := decide_eq_false (by omega)
      have h2 : (decide (p ≤ p)) = true := decide_eq_true (by omega)
      have hmono : (l.filter (fun x => decide (p + 1 ≤ x))).length ≤
          (l.filter (fun x => decide (p ≤ x))).length := by
        apply List.Sublist.length_le
        apply List.monotone_filter_right
        intro x hx
        simp only [decide_eq_true_eq] at hx ⊢
        omega
      simp only [h1, h2, Bool.false_eq_true, if_false, if_true, List.length_cons]
      omega
    · by_cases hs : p + 1 ≤ a
      · have h1 : (decide (p + 1 ≤ a)) = true := decide_eq_true hs
        have h2 : (decide (p ≤ a)) = true := decide_eq_true (by omega)
        simp only [h1, h2, if_true, List.length_cons]
        exact Nat.succ_lt_succ (ih ha)
      · have h1 : (decide (p + 1 ≤ a)) = false := decide_eq_false hs
        by_cases h2 : p ≤ a
        · have h2' : (decide (p ≤ a)) = true := decide_eq_true h2
          simp only [h1, h2', Bool.false_eq_true, if_false, if_true, List.length_cons]
          exact Nat.lt_succ_of_lt (ih ha)
        · have h2' : (decide (p ≤ a)) = false := decide_eq_false h2
          simp only [h1, h2', Bool.false_eq_true, if_false]
          exact ih ha

theorem nextFreeAux_not_mem (used : List Int) :
    ∀ (fuel : Nat) (p : Int),
      (used.filter (fun x => decide (p ≤ x))).length < fuel →
      nextFreeAux used fuel p ∉ used := by
  intro fuel
  induction fuel with
  | zero => intro p h; omega
  | succ f ih =>
    intro p h
    simp only [nextFreeAux]
    by_cases hp : p ∈ used
    · rw [if_pos hp]
      refine ih (p + 1) ?_
      have := length_filter_succ_lt used p hp
      omega
    · rw [if_neg hp]
      exact hp

theorem nextFree_not_mem (used : List Int) (p : Int) : nextFree used p ∉ used := by
  refine nextFreeAux_not_mem used (used.length + 1) p ?_
  have := List.length_filter_le (fun x => decide (p ≤ x)) used
  omega

theorem dedupAux_subset (l : List PortInfo) :
    ∀ (seen : List Int) (r : PortInfo), r ∈ dedupAux seen l → r ∈ l := by
  induction l with
  | nil => intro seen r h; simp [dedupAux] at h
  | cons a rest ih =>
    intro seen r h
    simp only [dedupAux] at h
    by_cases hs : a.port ∈ seen
    · rw [if_pos hs] at h
      exact List.mem_cons_of_mem a (ih seen r h)
    · rw [if_neg hs] at h
      rcases List.mem_cons.mp h with rfl | h'
      · exact List.mem_cons_self _ _
      · exact List.mem_cons_of_mem a (ih (a.port :: seen) r h')

theorem dedupAux_filter (p : Int) :
    ∀ (l : List PortInfo) (seen : List Int),
      (dedupAux seen l).filter (fun r => r.port == p) =
        if p ∈ seen then [] else ((l.find? (fun r => r.port == p)).toList) := by
  intro l
  induction l with
  | nil => intro seen; simp [dedupAux]
  | cons a rest ih =>
    intro seen
    simp only [dedupAux]
    by_cases hs : a.port ∈ seen
    · rw [if_pos hs, ih]
      by_cases hp : p ∈ seen
      · rw [if_pos hp, if_pos hp]
      · have hne : (a.port == p) = false := by
          refine beq_eq_false_iff_ne.mpr ?_
          intro h; exact hp (h ▸ hs)
        rw [if_neg hp, if_neg hp]
        simp only [List.find?, hne]
    · rw [if_neg hs]
      simp only [List.filter_cons]
      by_cases hap : (a.port == p) = true
      · have hpa : p = a.port := (beq_iff_eq.mp hap).symm
        have hpns : p ∉ seen := hpa ▸ hs
        rw [if_neg hpns]
        simp only [hap, if_true, List.find?, Option.toList]
        rw [ih]
        have hmem : p ∈ a.port :: seen := by
          rw [hpa]; exact List.mem_cons_self _ _
        rw [if_pos hmem]
      · have hap' : (a.port == p) = false := by
          cases h : (a.port == p) with
          | false => rfl
          | true => exact absurd h hap
        simp only [hap', Bool.false_eq_true, if_false]
        rw [ih]
        simp only [List.find?, hap']
        have hmem : (p ∈ a.port :: seen) ↔ (p ∈ seen) := by
          constructor
          · intro h
            rcases List.mem_cons.mp h with h1 | h2
            · exact absurd (beq_iff_eq.mpr h1.symm) (by rw [hap']; simp)
            · exact h2
          · exact fun h => List.mem_cons_of_mem _ h
        by_cases hp : p ∈ seen
        · rw [if_pos (hmem.mpr hp), if_pos hp]
        · rw [if_neg (fun h => hp (hmem.mp h)), if_neg hp]

theorem parseRow_not_loopback_prefix (line : String) (r : PortInfo)
    (h : parseRow line = some r) :
    pyStartsWith r.address "127.0.0" = false ∧
      pyStartsWith r.address "::1" = false := by
  unfold parseRow at h
  split at h
  case isFalse => exact absurd h (by simp)
  split at h
  case h_2 => exact absurd h (by simp)
  split at h
  case h_2 => exact absurd h (by simp)
  split at h
  case h_2 => exact absurd h (by simp)
  split at h
  case isTrue => exact absurd h (by simp)
  rename_i hcond
  injection h with h2
  subst h2
  simp only [Bool.or_eq_true, not_or, Bool.not_eq_true] at hcond
  exact ⟨hcond.1, hcond.2⟩

theorem mem_scan_ports (instanceId : String) (res : CmdResult) (r : PortInfo)
    (h : r ∈ (scan_instance_ports instanceId res).ports) :
    ∃ line, line ∈ (splitNewlines (pyStrip res.stdout)).drop 1 ∧
      parseRow line = some r := by
  unfold scan_instance_ports at h
  by_cases hrc : res.returncode ≠ 0
  · rw [if_pos hrc] at h
    simp at h
  · rw [if_neg hrc] at h
    simp only at h
    have hmem : r ∈ parsedRecords res.stdout := dedupAux_subset _ _ r h
    unfold parsedRecords at hmem
    rcases List.mem_filterMap.mp hmem with ⟨line, hline, hparse⟩
    exact ⟨line, hline, hparse⟩

theorem pickExternal_fallback (st : AllocState) (pi : PortInfo)
    (h : IsFallback pi) :
    pickExternal st pi =
      (nextFree st.used_external_ports (9000 + pi.port.emod 1000), st) := by
  obtain ⟨h1, h2, h3, h4, h5, h6, h7⟩ := h
  simp only [pickExternal, if_neg h1, if_neg h2, if_neg h3, if_neg h4,
    if_neg h5, if_neg h6, if_neg h7]

theorem assignOne_mapping (st : AllocState) (inst : String) (pi : PortInfo) :
    ((assignOne st inst pi).2).internal_port = pi.port ∧
      ((assignOne st inst pi).2).service_type = pi.service_type ∧
      ((assignOne st inst pi).2).distro = inst ∧
      ((assignOne st inst pi).2).firewall = "local" ∧
      ((assignOne st inst pi).2).port = (pickExternal st pi).1 :=
  ⟨rfl, rfl, rfl, rfl, rfl⟩

theorem assignInstance_internal_ports (inst : String) :
    ∀ (l : List PortInfo) (st : AllocState),
      ((assignInstance st inst l).2).map (fun m => m.internal_port) =
        l.map (fun r => r.port) := by
  intro l
  induction l with
  | nil => intro st; rfl
  | cons pi rest ih =>
    intro st
    simp only [assignInstance, List.map_cons]
    rw [ih]
    rfl

theorem assignAll_skips_inaccessible :
    ∀ (l : List InstanceInfo) (st : AllocState) (d : List (String × List Mapping)),
      assignAll st d l = assignAll st d (l.filter (fun i => i.accessible)) := by
  intro l
  induction l with
  | nil => intro st d; rfl
  | cons info rest ih =>
    intro st d
    simp only [assignAll, List.filter_cons]
    by_cases ha : info.accessible
    · rw [if_pos ha, if_pos ha]
      simp only [assignAll, if_pos ha]
      exact ih _ _
    · rw [if_neg ha, if_neg ha]
      exact ih _ _

theorem assignAll_plan :
    ∀ (l : List InstanceInfo) (st : AllocState) (d : List (String × List Mapping)),
      ((d.map (fun e => e.1)) ++
          ((l.filter (fun i => i.accessible)).map (fun i => i.instanceId))).Nodup →
      (assignAll st d l).1.map (fun e => (e.1, e.2.map (fun m => m.internal_port))) =
        d.map (fun e => (e.1, e.2.map (fun m => m.internal_port))) ++
          (l.filter (fun i => i.accessible)).map
            (fun i => (i.instanceId, i.ports.map (fun r => r.port))) := by
  intro l
  induction l with
  | nil => intro st d h; simp [assignAll]
  | cons info rest ih =>
    intro st d h
    rw [List.filter_cons] at h
    simp only [assignAll, List.filter_cons]
    by_cases ha : info.accessible
    · rw [if_pos ha] at h
      rw [if_pos ha]
      simp only [List.map_cons] at h
      have hnotin : info.instanceId ∉ d.map (fun e => e.1) := by
        intro hmem
        exact (List.nodup_append.mp h).2.2 hmem (List.mem_cons_self _ _)
      have hany : ¬(d.any (fun e => e.1 == info.instanceId) = true) := by
        intro hany
        rcases List.any_eq_true.mp hany with ⟨e, he, hbe⟩
        exact hnotin (List.mem_map.mpr ⟨e, he, beq_iff_eq.mp hbe⟩)
      have hset : setKey d info.instanceId
            (assignInstance st info.instanceId info.ports).2 =
          d ++ [(info.instanceId, (assignInstance st info.instanceId info.ports).2)] := by
        unfold setKey
        rw [if_neg hany]
      rw [hset]
      have hnodup' :
          (((d ++ [(info.instanceId,
              (assignInstance st info.instanceId info.ports).2)]).map (fun e => e.1)) ++
            ((rest.filter (fun i => i.accessible)).map (fun i => i.instanceId))).Nodup := by
        simpa [List.append_assoc] using h
      rw [ih _ _ hnodup']
      rw [if_pos ha]
      simp [List.map_append, List.append_assoc, assignInstance_internal_ports]
    · rw [if_neg ha] at h
      rw [if_neg ha, if_neg ha]
      exact ih _ _ h

theorem accessError_contains_exit (rc : Int) (s : String) :
    containsSubstr (accessError rc s) (toString rc) = true := by
  simp only [containsSubstr, accessError, decide_eq_true_eq]
  exact ⟨"Failed to access (exit ".data, "): ".data ++ (pyStrip s).data, by simp⟩

theorem accessError_contains_stderr (rc : Int) (s : String) :
    containsSubstr (accessError rc s) (pyStrip s) = true := by
  simp only [containsSubstr, accessError, decide_eq_true_eq]
  exact ⟨("Failed to access (exit " ++ toString rc ++ "): ").data, [], by simp⟩

theorem assignOne_fallback (st : AllocState) (inst : String) (pi : PortInfo)
    (h : IsFallback pi) :
    assignOne st inst pi =
      ({ st with used_external_ports :=
           nextFree st.used_external_ports (9000 + pi.port.emod 1000) ::
             st.used_external_ports },
       { name := inst ++ " " ++ pi.service_type, distro := inst,
         protocol := "tcp",
         port := nextFree st.used_external_ports (9000 + pi.port.emod 1000),
         internal_port := pi.port, firewall := "local",
         listen_address := "0.0.0.0", service_type := pi.service_type,
         original_address := pi.address }) := by
  have hpe := pickExternal_fallback st pi h
  simp only [assignOne, hpe]
  rw [if_neg (nextFree_not_mem _ _)]

/-! ### Claim theorems -/

/-- C2 counterexample: the row bound to 127.1.0.1 — a loopback address in
127.0.0.0/8 — survives the scan, so loopback rows are not always discarded
as the claim states. -/
theorem C2_counterexample :
    specLoopback "127.1.0.1" = true ∧
      (scan_instance_ports "Ubuntu" loopbackRes).ports.map (fun r => r.address) =
        ["127.1.0.1"] := by
  constructor
  · decide
  · decide

/-- C2 (amended): every record stored by the scanner has an address that
starts with neither "127.0.0" nor "::1" — the code's actual prefix test,
narrower than the 127.0.0.0/8 block the claim names. -/
theorem C2_thm (instanceId : String) (res : CmdResult) (r : PortInfo)
    (h : r ∈ (scan_instance_ports instanceId res).ports) :
    pyStartsWith r.address "127.0.0" = false ∧
      pyStartsWith r.address "::1" = false := by
  rcases mem_scan_ports instanceId res r h with ⟨line, _, hparse⟩
  exact parseRow_not_loopback_prefix line r hparse

/-- C2 witness: the amended theorem applied to the record the scan of
`resDup` stores. -/
theorem C2_witness :
    pyStartsWith dupRecord.address "127.0.0" = false ∧
      pyStartsWith dupRecord.address "::1" = false :=
  C2_thm "Ubuntu" resDup dupRecord (by decide)

/-- C3 counterexample: a row reporting port 70000 produces a stored record
with port 70000, outside the claimed 1-65535 range. -/
theorem C3_counterexample :
    (scan_instance_ports "Ubuntu" res70000).ports.map (fun r => r.port) =
        [70000] ∧
      ¬((1 : Int) ≤ 70000 ∧ (70000 : Int) ≤ 65535) := by
  constructor
  · decide
  · decide

/-- C3 (amended): every stored record comes from a retained data row via
`parseRow` — its port is whatever integer parsed after the final colon,
with no range check, as the stored port 70000 shows. -/
theorem C3_thm :
    (∀ (instanceId : String) (res : CmdResult) (r : PortInfo),
        r ∈ (scan_instance_ports instanceId res).ports →
        ∃ line, line ∈ (splitNewlines (pyStrip res.stdout)).drop 1 ∧
          parseRow line = some r) ∧
      (scan_instance_ports "Ubuntu" res70000).ports.map (fun r => r.port) =
        [70000] := by
  constructor
  · exact mem_scan_ports
  · decide

/-- C3 witness: the origin statement applied to the stored port-70000
record. -/
theorem C3_witness :
    ∃ line, line ∈ (splitNewlines (pyStrip res70000.stdout)).drop 1 ∧
      parseRow line = some rec70000 :=
  C3_thm.1 "Ubuntu" res70000 rec70000 (by decide)

/-- C4: the classifier's three layers apply in strict precedence — a
well-known-port hit always wins, a text hint wins over the range fallback
(which applies only when both earlier layers miss) — so port 22 is "SSH"
whatever the row text (even one naming nginx), 3500 classifies as
"Dev Server" and 9500 as "Unknown". -/
theorem C4_thm :
    (∀ (port : Int) (line : String) (label : String),
        lookupCommon port = some label → identify_service port line = label) ∧
      (∀ (port : Int) (line : String) (label : String),
        lookupCommon port = none → textHint line = some label →
          identify_service port line = label) ∧
      (∀ (port : Int) (line : String),
        lookupCommon port = none → textHint line = none →
          identify_service port line = rangeGuess port) ∧
      (∀ line : String, identify_service 22 line = "SSH") ∧
      containsSubstr (pyLower "users:((nginx))") "nginx" = true ∧
      identify_service 22 "users:((nginx))" = "SSH" ∧
      identify_service 3500 "" = "Dev Server" ∧
      identify_service 9500 "" = "Unknown" := by
  refine ⟨?_, ?_, ?_, ?_, by decide, by decide, by decide, by decide⟩
  · intro port line label h
    unfold identify_service
    rw [h]
  · intro port line label h1 h2
    unfold identify_service
    rw [h1, h2]
  · intro port line h1 h2
    unfold identify_service
    rw [h1, h2]
  · intro line
    unfold identify_service
    rw [show lookupCommon 22 = some "SSH" from rfl]

/-- C4 witness: the first layer applied at port 22. -/
theorem C4_witness : identify_service 22 "" = "SSH" :=
  C4_thm.1 22 "" "SSH" rfl

/-- C5: three accessible instances each exposing internal port 22 labeled
SSH receive external ports 2201, 2202, 2203 in enumeration order, with no
conflict recorded. -/
theorem C5_thm :
    (assign_external_ports
        [sshInstance "A", sshInstance "B", sshInstance "C"]).1.map
          (fun e => (e.1, e.2.map (fun m => m.port))) =
        [("A", [2201]), ("B", [2202]), ("C", [2203])] ∧
      (assign_external_ports
        [sshInstance "A", sshInstance "B", sshInstance "C"]).2 = [] := by
  constructor
  · decide
  · decide

/-- C6: after deduplication, the rows surviving for any port number `p` are
exactly the first parsed row with that port (none when no row has it). -/
theorem C6_thm (instanceId : String) (res : CmdResult) (p : Int)
    (h : res.returncode = 0) :
    (scan_instance_ports instanceId res).ports.filter (fun r => r.port == p) =
      ((parsedRecords res.stdout).find? (fun r => r.port == p)).toList := by
  unfold scan_instance_ports
  rw [if_neg (by simp [h])]
  unfold dedupByPort
  simpa using dedupAux_filter p (parsedRecords res.stdout) []

/-- C6 witness: the dedup theorem applied to the double-5432 scan. -/
theorem C6_witness :
    (scan_instance_ports "Ubuntu" resDup).ports.filter (fun r => r.port == 5432) =
      ((parsedRecords resDup.stdout).find? (fun r => r.port == 5432)).toList :=
  C6_thm "Ubuntu" resDup 5432 rfl

/-- C7: a nonzero exit status yields `accessible = false`, an empty port
list and an error string containing the exit status and the stderr text,
and the allocator computes the same output as if the inaccessible
instances were absent. -/
theorem C7_thm :
    (∀ (instanceId : String) (res : CmdResult), res.returncode ≠ 0 →
        (scan_instance_ports instanceId res).accessible = false ∧
        (scan_instance_ports instanceId res).ports = [] ∧
        (scan_instance_ports instanceId res).error =
          some (accessError res.returncode res.stderr) ∧
        containsSubstr (accessError res.returncode res.stderr)
          (toString res.returncode) = true ∧
        containsSubstr (accessError res.returncode res.stderr)
          (pyStrip res.stderr) = true) ∧
      (∀ all : List InstanceInfo,
        assign_external_ports all =
          assign_external_ports (all.filter (fun i => i.accessible))) := by
  constructor
  · intro instanceId res h
    unfold scan_instance_ports
    rw [if_pos h]
    exact ⟨rfl, rfl, rfl, accessError_contains_exit _ _,
      accessError_contains_stderr _ _⟩
  · intro all
    unfold assign_external_ports
    exact assignAll_skips_inaccessible all initState []

/-- C7 witness: the failure branch applied to a command with exit 1. -/
theorem C7_witness :
    (scan_instance_ports "Broken" brokenRes).accessible = false ∧
      (scan_instance_ports "Broken" brokenRes).ports = [] ∧
      (scan_instance_ports "Broken" brokenRes).error =
        some (accessError brokenRes.returncode brokenRes.stderr) ∧
      containsSubstr (accessError brokenRes.returncode brokenRes.stderr)
        (toString brokenRes.returncode) = true ∧
      containsSubstr (accessError brokenRes.returncode brokenRes.stderr)
        (pyStrip brokenRes.stderr) = true :=
  C7_thm.1 "Broken" brokenRes (by decide)

/-- C8: for scan results whose accessible instances carry distinct names
(the data model's uniqueness invariant), the plan lists the accessible
instances in enumeration order, and each instance's mappings carry its
scanned internal ports in scan order — one mapping per record. -/
theorem C8_thm (all : List InstanceInfo)
    (h : ((all.filter (fun i => i.accessible)).map (fun i => i.instanceId)).Nodup) :
    (assign_external_ports all).1.map
        (fun e => (e.1, e.2.map (fun m => m.internal_port))) =
      (all.filter (fun i => i.accessible)).map
        (fun i => (i.instanceId, i.ports.map (fun r => r.port))) := by
  have hplan := assignAll_plan all initState [] (by simpa using h)
  simpa [assign_external_ports] using hplan

/-- C8 witness: the plan-shape theorem applied to two accessible
instances. -/
theorem C8_witness :
    (assign_external_ports [sshInstance "A", sshInstance "B"]).1.map
        (fun e => (e.1, e.2.map (fun m => m.internal_port))) =
      ([sshInstance "A", sshInstance "B"].filter (fun i => i.accessible)).map
        (fun i => (i.instanceId, i.ports.map (fun r => r.port))) :=
  C8_thm [sshInstance "A", sshInstance "B"] (by decide)

/-- C9: in an emitted port entry the `internal_port` field is dropped
exactly when it equals the external `port`, and the `firewall` field is
carried over from the mapping, which the allocator always sets to the
literal "local". -/
theorem C9_thm :
    (∀ m : Mapping,
        ((mkPortConfig m).internal_port = none ↔ m.internal_port = m.port) ∧
        (mkPortConfig m).port = m.port ∧
        (mkPortConfig m).firewall = m.firewall) ∧
      (∀ (st : AllocState) (inst : String) (pi : PortInfo),
        ((assignOne st inst pi).2).firewall = "local") := by
  constructor
  · intro m
    by_cases h : m.port = m.internal_port
    · simp [mkPortConfig, h]
    · simp only [mkPortConfig, if_neg h]
      refine ⟨?_, trivial, trivial⟩
      constructor
      · intro hx
        exact absurd hx (by simp)
      · intro hx
        exact absurd hx.symm h
  · intro st inst pi
    rfl

/-- C9 witness: the omission rule evaluated on a fallback-assigned
mapping. -/
theorem C9_witness :
    ((assignOne initState "Ubuntu" fbRecord).2).firewall = "local" :=
  C9_thm.2 initState "Ubuntu" fbRecord

/-- C10: a fallback-assigned external port is never already used at the
conflict check — the avoidance loop returns a port outside the used set —
so the fallback branch records no conflict and marks its port used. -/
theorem C10_thm (st : AllocState) (inst : String) (pi : PortInfo)
    (h : IsFallback pi) :
    (pickExternal st pi).1 ∉ st.used_external_ports ∧
      ((assignOne st inst pi).1).conflicts = st.conflicts ∧
      ((assignOne st inst pi).1).used_external_ports =
        (pickExternal st pi).1 :: st.used_external_ports := by
  have hpe := pickExternal_fallback st pi h
  have hone := assignOne_fallback st inst pi h
  refine ⟨?_, ?_, ?_⟩
  · rw [hpe]
    exact nextFree_not_mem _ _
  · rw [hone]
  · rw [hone, hpe]

/-- C10 witness: the no-fallback-conflict theorem applied to the
port-100 record in the initial state. -/
theorem C10_witness :
    (pickExternal initState fbRecord).1 ∉ initState.used_external_ports ∧
      ((assignOne initState "Ubuntu" fbRecord).1).conflicts =
        initState.conflicts ∧
      ((assignOne initState "Ubuntu" fbRecord).1).used_external_ports =
        (pickExternal initState fbRecord).1 ::
          initState.used_external_ports :=
  C10_thm initState "Ubuntu" fbRecord (by decide)

/-- C1 counterexample: two instances whose fallback records compute the
same candidate 9100 produce NO conflict entry — the avoidance loop moves
the second record to 9101 — contradicting the claimed single Conflict
entry for that port. -/
theorem C1_counterexample :
    (assign_external_ports [fbInstance "A", fbInstance "B"]).2 = [] ∧
      (assign_external_ports [fbInstance "A", fbInstance "B"]).1.map
          (fun e => (e.1, e.2.map (fun m => m.port))) =
        [("A", [9100]), ("B", [9101])] := by
  constructor
  · decide
  · decide

/-- C1 (amended): for two accessible instances each holding one
fallback-assigned record with the same candidate external port, allocate
records no conflict: the first record takes the candidate, the second is
advanced to the next port, and both receive a mapping. -/
theorem C1_thm (n1 n2 : String) (r1 r2 : PortInfo)
    (hn : n1 ≠ n2) (h1 : IsFallback r1) (h2 : IsFallback r2)
    (hc : r1.port.emod 1000 = r2.port.emod 1000) :
    (assign_external_ports
        [{ instanceId := n1, accessible := true, ports := [r1],
           services := [], error := none },
         { instanceId := n2, accessible := true, ports := [r2],
           services := [], error := none }]).2 = [] ∧
      (assign_external_ports
        [{ instanceId := n1, accessible := true, ports := [r1],
           services := [], error := none },
         { instanceId := n2, accessible := true, ports := [r2],
           services := [], error := none }]).1.map
          (fun e => (e.1, e.2.map (fun m => m.port))) =
        [(n1, [9000 + r1.port.emod 1000]),
         (n2, [9000 + r1.port.emod 1000 + 1])] := by
  have hnf1 : nextFree ([] : List Int) (9000 + r1.port.emod 1000) =
      9000 + r1.port.emod 1000 := by
    simp [nextFree, nextFreeAux]
  have hne : ¬((9000 + r1.port.emod 1000 + 1) ∈ [9000 + r1.port.emod 1000]) := by
    simp only [List.mem_singleton]
    omega
  have hnf2 : nextFree [9000 + r1.port.emod 1000] (9000 + r2.port.emod 1000) =
      9000 + r1.port.emod 1000 + 1 := by
    rw [← hc]
    simp only [nextFree, nextFreeAux, List.length_singleton]
    rw [if_pos (List.mem_singleton.mpr rfl), if_neg hne]
  have e1 := assignOne_fallback initState n1 r1 h1
  have hbe : (n1 == n2) = false := beq_eq_false_iff_ne.mpr hn
  simp only [assign_external_ports, assignAll, assignInstance, if_true, e1,
    show initState.used_external_ports = ([] : List Int) from rfl, hnf1]
  have e2 := assignOne_fallback
      { initState with used_external_ports := [9000 + r1.port.emod 1000] }
      n2 r2 h2
  simp only [e2,
    show ({ initState with
        used_external_ports :=
          [9000 + r1.port.emod 1000] }).used_external_ports =
      [9000 + r1.port.emod 1000] from rfl,
    hnf2, setKey, List.any_nil, List.any_cons, List.any_eq_true, hbe,
    Bool.or_false, Bool.false_eq_true, if_false, List.nil_append,
    List.map_cons, List.map_nil]
  refine ⟨rfl, ?_⟩
  simp

/-- C1 witness: the amended theorem applied to two instances holding the
port-100 fallback record. -/
theorem C1_witness :
    (assign_external_ports
        [{ instanceId := "A", accessible := true, ports := [fbRecord],
           services := [], error := none },
         { instanceId := "B", accessible := true, ports := [fbRecord],
           services := [], error := none }]).2 = [] ∧
      (assign_external_ports
        [{ instanceId := "A", accessible := true, ports := [fbRecord],
           services := [], error := none },
         { instanceId := "B", accessible := true, ports := [fbRecord],
           services := [], error := none }]).1.map
          (fun e => (e.1, e.2.map (fun m => m.port))) =
        [("A", [9000 + fbRecord.port.emod 1000]),
         ("B", [9000 + fbRecord.port.emod 1000 + 1])] :=
  C1_thm "A" "B" fbRecord fbRecord (by decide) (by decide) (by decide) rfl

end ScanWsl
